import Mathlib

/-!
Verification of the Tempo AI MCP server (`tempoai_mcp_server`) against its
natural-language specification.

This file gives a shallow embedding, in Lean 4, of the parts of the Python
source that the specification claims talk about:

* `src/tempoai_mcp_server/utils/dates.py` — the date/range resolver
  (`parse_date_range`, `get_default_start_date`, `get_default_end_date`);
* `src/tempoai_mcp_server/utils/validation.py` — `resolve_date_params`;
* `src/tempoai_mcp_server/tools/workouts.py`, `events.py`, `wellness.py` —
  the tool handlers (pagination clamping, response unwrapping, error
  rendering) and their `_format_*_response` helpers;
* `src/tempoai_mcp_server/utils/formatting.py` — the formatting helpers the
  handlers hand unwrapped data to.

Modelling conventions:

* Decoded JSON payloads (what `make_tempo_ai_request` hands back on success)
  are modelled by the inductive type `Py` below.  JSON numbers are modelled
  as integers (`Int`); none of the verified claims mentions a non-integer
  number.  Python `bool` is kept separate from `int` except where the source
  does arithmetic on it, where its usual 1/0 value is used.
* Python code that can raise a runtime `TypeError` (e.g. `len` of a
  non-sized value, arithmetic on a string) is embedded in `Except String`;
  `Except.error` marks exactly the inputs on which the Python source would
  raise.  Total Python code is embedded as total functions.
* `datetime.now(timezone.utc)` is modelled by passing the current UTC date
  explicitly, as its proleptic Gregorian ordinal (`1` = year 1, January 1,
  the same ordinal CPython's `datetime` uses; 1970-01-01 is 719163).
  `timedelta(days = k)` arithmetic is ordinal arithmetic.  CPython dates are
  defined exactly for ordinals `1 ..= 3652059` (year 1 .. year 9999);
  theorems that need in-range dates carry that bound as a hypothesis.
* `ord2ymd` below is CPython's `datetime._ord2ymd` (datetime.py), the
  function `strftime("%Y-%m-%d")` ultimately renders from.
-/

/-! ## Calendar arithmetic (CPython `datetime.py` internals) -/

/-- Days in a non-leap year before the given month, CPython
`_DAYS_BEFORE_MONTH` (index 1..12). -/
def daysBeforeMonth (m : Nat) : Nat :=
  if m ≤ 1 then 0 else if m = 2 then 31 else if m = 3 then 59 else if m = 4 then 90
  else if m = 5 then 120 else if m = 6 then 151 else if m = 7 then 181 else if m = 8 then 212
  else if m = 9 then 243 else if m = 10 then 273 else if m = 11 then 304 else 334

/-- Days in the given month of a non-leap year, CPython `_DAYS_IN_MONTH`. -/
def daysInMonthNL (m : Nat) : Nat :=
  if m = 2 then 28 else if m = 4 ∨ m = 6 ∨ m = 9 ∨ m = 11 then 30 else 31

/-- CPython `_is_leap`: Gregorian leap year test. -/
def isLeapYear (y : Nat) : Bool :=
  y % 4 = 0 && (y % 100 != 0 || y % 400 = 0)

/-- Days in a month of a given year (CPython `_days_in_month`). -/
def daysInMonth (y m : Nat) : Nat :=
  if m = 2 then (if isLeapYear y then 29 else 28) else daysInMonthNL m

/-- Month/day extraction step of CPython `_ord2ymd`: given the leap bit `lb`
(1 when the year is leap) and the 0-based day of the year `rest`, estimate
`month = (rest + 50) >> 5` and correct downward once if the estimate
overshoots, exactly as in `datetime.py`. -/
def monthDayOf (lb rest : Nat) : Nat × Nat :=
  let month := (rest + 50) / 32
  let preceding := daysBeforeMonth month + (if 2 < month then lb else 0)
  if rest < preceding then
    let month1 := month - 1
    let preceding1 := preceding - (daysInMonthNL month1 + (if month1 = 2 then lb else 0))
    (month1, rest - preceding1 + 1)
  else (month, rest - preceding + 1)

/-- CPython `_ord2ymd`: proleptic Gregorian ordinal (1 = 0001-01-01) to
`(year, month, day)`.  The divmod chain peels off 400-year, 100-year,
4-year and 1-year cycles; `n1 = 4` or `n100 = 4` marks December 31 of a
leap year (the last day of a cycle). -/
def ord2ymd (n : Nat) : Nat × Nat × Nat :=
  let n0 := n - 1
  let n400 := n0 / 146097
  let r400 := n0 % 146097
  let n100 := r400 / 36524
  let r100 := r400 % 36524
  let n4 := r100 / 1461
  let r4 := r100 % 1461
  let n1 := r4 / 365
  let rest := r4 % 365
  let year := n400 * 400 + n100 * 100 + n4 * 4 + n1 + 1
  if n1 = 4 ∨ n100 = 4 then (year - 1, 12, 31)
  else
    let lb := if n1 = 3 ∧ (n4 ≠ 24 ∨ n100 = 3) then 1 else 0
    let md := monthDayOf lb rest
    (year, md.1, md.2)

/-! ## Rendering `strftime("%Y-%m-%d")` -/

/-- Four zero-padded decimal digits (strftime `%Y` for years `1 ..= 9999`). -/
def fmt4 (y : Nat) : List Char :=
  [Nat.digitChar (y / 1000 % 10), Nat.digitChar (y / 100 % 10),
   Nat.digitChar (y / 10 % 10), Nat.digitChar (y % 10)]

/-- Two zero-padded decimal digits (strftime `%m`, `%d`). -/
def fmt2 (x : Nat) : List Char :=
  [Nat.digitChar (x / 10 % 10), Nat.digitChar (x % 10)]

/-- `date.fromordinal(n).strftime("%Y-%m-%d")` for an ordinal `n`;
faithful to CPython on the ordinals CPython defines, `1 ..= 3652059`. -/
def formatYMD (n : Nat) : String :=
  let ymd := ord2ymd n
  String.mk (fmt4 ymd.1 ++ ('-' :: fmt2 ymd.2.1) ++ ('-' :: fmt2 ymd.2.2))

/-- Ordinal-level date rendering with `Int` day arithmetic (Python date ±
timedelta).  Python raises `OverflowError` outside ordinals
`1 ..= 3652059`; theorems about this function carry that range bound. -/
def strftimeDate (n : Int) : String :=
  formatYMD n.toNat

/-! ## The date/range resolver (`utils/dates.py`, `utils/validation.py`) -/

/-- `get_default_start_date(days_ago)` from `utils/dates.py`:
`(datetime.now(timezone.utc) - timedelta(days=days_ago)).strftime("%Y-%m-%d")`,
with the current UTC date passed explicitly as ordinal `today`. -/
def get_default_start_date (days_ago : Int) (today : Int) : String :=
  strftimeDate (today - days_ago)

/-- `get_default_end_date()` from `utils/dates.py`:
`(datetime.now(timezone.utc) + timedelta(days=1)).strftime("%Y-%m-%d")` —
tomorrow, not today. -/
def get_default_end_date (today : Int) : String :=
  strftimeDate (today + 1)

/-- Python truthiness of an optional string argument: `not start_date` is
true for `None` and for the empty string. -/
def strOptFalsy : Option String → Bool
  | none => true
  | some s => s.isEmpty

/-- `parse_date_range(start_date, end_date, default_start_days_ago)` from
`utils/dates.py` (`default_start_days_ago` defaults to 30 at the call
sites). `if not start_date:` replaces the argument by the computed default;
otherwise the supplied value is passed through untouched. -/
def parse_date_range (start_date end_date : Option String)
    (default_start_days_ago : Int) (today : Int) : String × String :=
  (if strOptFalsy start_date then get_default_start_date default_start_days_ago today
   else start_date.getD "",
   if strOptFalsy end_date then get_default_end_date today
   else end_date.getD "")

/-- `resolve_date_params` from `utils/validation.py`: a direct pass-through
to `parse_date_range`. -/
def resolve_date_params (start_date end_date : Option String)
    (default_start_days_ago : Int) (today : Int) : String × String :=
  parse_date_range start_date end_date default_start_days_ago today

/-! ## Parseability of a rendered date (`YYYY-MM-DD`) -/

/-- Digit value of a character. -/
def digitVal (c : Char) : Nat := c.toNat - 48

/-- `s` parses as a canonical `YYYY-MM-DD` calendar date: ten characters,
four-digit year, two-digit month and day, dashes in between, and the triple
is a real proleptic Gregorian date as CPython
`datetime.strptime(s, "%Y-%m-%d")` validates it (year ≥ 1, month `1..12`,
day `1 ..= days_in_month`). -/
def isValidYMD (s : String) : Bool :=
  match s.data with
  | [y1, y2, y3, y4, h1, m1, m2, h2, d1, d2] =>
    y1.isDigit && y2.isDigit && y3.isDigit && y4.isDigit &&
    h1 == '-' && h2 == '-' &&
    m1.isDigit && m2.isDigit && d1.isDigit && d2.isDigit &&
    (let y := digitVal y1 * 1000 + digitVal y2 * 100 + digitVal y3 * 10 + digitVal y4
     let m := digitVal m1 * 10 + digitVal m2
     let d := digitVal d1 * 10 + digitVal d2
     decide (1 ≤ y) && decide (1 ≤ m) && decide (m ≤ 12) &&
     decide (1 ≤ d) && decide (d ≤ daysInMonth y m))
  | _ => false

/-! ## Calendar validity lemmas -/

theorem daysBeforeMonth_spec (m : Nat) :
    (m ≤ 1 → daysBeforeMonth m = 0) ∧ (m = 2 → daysBeforeMonth m = 31) ∧
    (m = 3 → daysBeforeMonth m = 59) ∧ (m = 4 → daysBeforeMonth m = 90) ∧
    (m = 5 → daysBeforeMonth m = 120) ∧ (m = 6 → daysBeforeMonth m = 151) ∧
    (m = 7 → daysBeforeMonth m = 181) ∧ (m = 8 → daysBeforeMonth m = 212) ∧
    (m = 9 → daysBeforeMonth m = 243) ∧ (m = 10 → daysBeforeMonth m = 273) ∧
    (m = 11 → daysBeforeMonth m = 304) ∧ (m = 12 → daysBeforeMonth m = 334) := by
  refine ⟨fun h => ?_, fun h => ?_, fun h => ?_, fun h => ?_, fun h => ?_, fun h => ?_,
    fun h => ?_, fun h => ?_, fun h => ?_, fun h => ?_, fun h => ?_, fun h => ?_⟩
  · interval_cases m <;> decide
  all_goals subst h; decide

theorem daysInMonthNL_spec (m : Nat) :
    (m = 2 → daysInMonthNL m = 28) ∧
    (m = 4 ∨ m = 6 ∨ m = 9 ∨ m = 11 → daysInMonthNL m = 30) ∧
    (¬(m = 2 ∨ m = 4 ∨ m = 6 ∨ m = 9 ∨ m = 11) → daysInMonthNL m = 31) := by
  refine ⟨fun h => ?_, fun h => ?_, fun h => ?_⟩
  · subst h; decide
  · rcases h with h | h | h | h <;> subst h <;> decide
  · simp only [daysInMonthNL]
    split_ifs with h1 h2
    · exact absurd (Or.inl h1) h
    · exact absurd (Or.inr h2) h
    · rfl

theorem monthDayOf_valid (lb rest : Nat) (hlb : lb ≤ 1) (hrest : rest < 365) :
    1 ≤ (monthDayOf lb rest).1 ∧ (monthDayOf lb rest).1 ≤ 12 ∧
    1 ≤ (monthDayOf lb rest).2 ∧ (monthDayOf lb rest).2 ≤ 31 ∧
    ((monthDayOf lb rest).1 = 2 → (monthDayOf lb rest).2 ≤ 28 + lb) ∧
    ((monthDayOf lb rest).1 = 4 ∨ (monthDayOf lb rest).1 = 6 ∨ (monthDayOf lb rest).1 = 9 ∨
      (monthDayOf lb rest).1 = 11 → (monthDayOf lb rest).2 ≤ 30) := by
  simp only [monthDayOf]
  generalize hmonth : (rest + 50) / 32 = month
  generalize hdbm : daysBeforeMonth month = dbm
  generalize hdim : daysInMonthNL (month - 1) = dim1
  have s1 := daysBeforeMonth_spec month
  have s2 := daysInMonthNL_spec (month - 1)
  rw [hdbm] at s1
  rw [hdim] at s2
  split_ifs <;> dsimp only <;> omega

theorem ymd_day_le (year lb rest : Nat) (hlb : lb ≤ 1) (hrest : rest < 365)
    (hleap : isLeapYear year = true ↔ lb = 1) :
    1 ≤ (monthDayOf lb rest).1 ∧ (monthDayOf lb rest).1 ≤ 12 ∧
    1 ≤ (monthDayOf lb rest).2 ∧
    (monthDayOf lb rest).2 ≤ daysInMonth year (monthDayOf lb rest).1 := by
  obtain ⟨a, b, c, d, e, f⟩ := monthDayOf_valid lb rest hlb hrest
  refine ⟨a, b, c, ?_⟩
  by_cases hmm : (monthDayOf lb rest).1 = 2
  · have hdm : daysInMonth year 2 = 28 + lb := by
      cases hly : isLeapYear year
      · have hne : lb ≠ 1 := fun h => by simp [hleap.mpr h] at hly
        have hlb0 : lb = 0 := by omega
        subst hlb0
        simp [daysInMonth, hly]
      · have hlb1 : lb = 1 := hleap.mp hly
        subst hlb1
        simp [daysInMonth, hly]
    rw [hmm, hdm]
    omega
  · have hnl : daysInMonth year (monthDayOf lb rest).1 = daysInMonthNL (monthDayOf lb rest).1 := by
      simp [daysInMonth, hmm]
    rw [hnl]
    have s := daysInMonthNL_spec (monthDayOf lb rest).1
    omega

theorem ord2ymd_valid (n : Nat) (hlo : 1 ≤ n) (hhi : n ≤ 3652059) :
    1 ≤ (ord2ymd n).1 ∧ (ord2ymd n).1 ≤ 9999 ∧
    1 ≤ (ord2ymd n).2.1 ∧ (ord2ymd n).2.1 ≤ 12 ∧
    1 ≤ (ord2ymd n).2.2 ∧ (ord2ymd n).2.2 ≤ daysInMonth (ord2ymd n).1 (ord2ymd n).2.1 := by
  simp only [ord2ymd]
  generalize hn400 : (n - 1) / 146097 = n400
  generalize hr400 : (n - 1) % 146097 = r400
  generalize hn100 : r400 / 36524 = n100
  generalize hr100 : r400 % 36524 = r100
  generalize hn4 : r100 / 1461 = n4
  generalize hr4 : r100 % 1461 = r4
  generalize hn1 : r4 / 365 = n1
  generalize hrest : r4 % 365 = rest
  split_ifs with hsp hlb
  · dsimp only
    have h12 : ∀ y : Nat, daysInMonth y 12 = 31 := fun _ => rfl
    rw [h12]
    omega
  · dsimp only
    have hly : isLeapYear (n400 * 400 + n100 * 100 + n4 * 4 + n1 + 1) = true := by
      simp only [isLeapYear, Bool.and_eq_true, Bool.or_eq_true, decide_eq_true_eq,
        bne_iff_ne, ne_eq]
      omega
    have key := ymd_day_le (n400 * 400 + n100 * 100 + n4 * 4 + n1 + 1) 1 rest
      (Nat.le_refl 1) (by omega) (by rw [hly]; simp)
    exact ⟨by omega, by omega, key.1, key.2.1, key.2.2.1, key.2.2.2⟩
  · dsimp only
    have hly : isLeapYear (n400 * 400 + n100 * 100 + n4 * 4 + n1 + 1) = false := by
      simp only [isLeapYear, Bool.and_eq_false_iff]
      rcases Decidable.em (n1 = 3 ∧ (n4 ≠ 24 ∨ n100 = 3)) with h | h
      · exact absurd h hlb
      · simp only [Bool.or_eq_false_iff, decide_eq_false_iff_not, bne_eq_false_iff_eq, ne_eq]
        omega
    have key := ymd_day_le (n400 * 400 + n100 * 100 + n4 * 4 + n1 + 1) 0 rest
      (Nat.zero_le 1) (by omega) (by rw [hly]; simp)
    exact ⟨by omega, by omega, key.1, key.2.1, key.2.2.1, key.2.2.2⟩

theorem digitChar_isDigit (k : Nat) (h : k ≤ 9) : (Nat.digitChar k).isDigit = true := by
  interval_cases k <;> decide

theorem digitVal_digitChar (k : Nat) (h : k ≤ 9) : digitVal (Nat.digitChar k) = k := by
  interval_cases k <;> decide

theorem daysInMonth_le_31 (y m : Nat) : daysInMonth y m ≤ 31 := by
  unfold daysInMonth daysInMonthNL
  split_ifs <;> omega

theorem formatYMD_valid (n : Nat) (hlo : 1 ≤ n) (hhi : n ≤ 3652059) :
    isValidYMD (formatYMD n) = true := by
  obtain ⟨h1, h2, h3, h4, h5, h6⟩ := ord2ymd_valid n hlo hhi
  have h7 : (ord2ymd n).2.2 ≤ 31 := le_trans h6 (daysInMonth_le_31 _ _)
  dsimp only [formatYMD, fmt4, fmt2, isValidYMD, List.append_eq, List.cons_append,
    List.nil_append]
  have ey : digitVal (Nat.digitChar ((ord2ymd n).1 / 1000 % 10)) * 1000 +
      digitVal (Nat.digitChar ((ord2ymd n).1 / 100 % 10)) * 100 +
      digitVal (Nat.digitChar ((ord2ymd n).1 / 10 % 10)) * 10 +
      digitVal (Nat.digitChar ((ord2ymd n).1 % 10)) = (ord2ymd n).1 := by
    rw [digitVal_digitChar _ (by omega), digitVal_digitChar _ (by omega),
      digitVal_digitChar _ (by omega), digitVal_digitChar _ (by omega)]
    omega
  have em : digitVal (Nat.digitChar ((ord2ymd n).2.1 / 10 % 10)) * 10 +
      digitVal (Nat.digitChar ((ord2ymd n).2.1 % 10)) = (ord2ymd n).2.1 := by
    rw [digitVal_digitChar _ (by omega), digitVal_digitChar _ (by omega)]
    omega
  have ed : digitVal (Nat.digitChar ((ord2ymd n).2.2 / 10 % 10)) * 10 +
      digitVal (Nat.digitChar ((ord2ymd n).2.2 % 10)) = (ord2ymd n).2.2 := by
    rw [digitVal_digitChar _ (by omega), digitVal_digitChar _ (by omega)]
    omega
  rw [ey, em, ed]
  simp only [digitChar_isDigit _ (Nat.le_of_lt_succ (Nat.mod_lt _ (by omega))),
    Bool.true_and, beq_self_eq_true, Bool.and_eq_true, decide_eq_true_eq]
  omega

theorem formatYMD_1970 : formatYMD 719163 = "1970-01-01" := by decide

theorem formatYMD_leap : formatYMD (719163 + 19782) = "2024-02-29" := by decide

/-! ## Python decoded-JSON values and their primitives -/

/-- A decoded JSON value as the Python handlers see it.  Numbers are
modelled as integers; `bool` is separate from `int` as in `isinstance`
checks (and converts to 1/0 where the source does arithmetic on it). -/
inductive Py where
  | none : Py
  | bool : Bool → Py
  | int : Int → Py
  | str : String → Py
  | list : List Py → Py
  | dict : List (String × Py) → Py

/-- `d.get(k)` on a dict body: first match or Python `None`. -/
def wget (kvs : List (String × Py)) (k : String) : Py :=
  (List.lookup k kvs).getD Py.none

/-- `d.get(k, dflt)` on a dict body. -/
def wgetD (kvs : List (String × Py)) (k : String) (dflt : Py) : Py :=
  (List.lookup k kvs).getD dflt

/-- `k in d` on a dict body. -/
def hasKey (kvs : List (String × Py)) (k : String) : Bool :=
  (List.lookup k kvs).isSome

/-- Python truthiness (`bool(v)`) of a decoded value. -/
def pyFalsy : Py → Bool
  | Py.none => true
  | Py.bool b => !b
  | Py.int n => n == 0
  | Py.str s => s.isEmpty
  | Py.list xs => xs.isEmpty
  | Py.dict kvs => kvs.isEmpty

/-- `isinstance(v, dict)`. -/
def isDict : Py → Bool
  | Py.dict _ => true
  | _ => false

/-- `v is not None`. -/
def isNotNone : Py → Bool
  | Py.none => false
  | _ => true

/-- A single quote character, for Python `repr` of strings. -/
def squote : String := String.singleton (Char.ofNat 39)

mutual

/-- Python `str(v)` of a decoded value (as an f-string renders it).
Simplification: `repr` of a string always uses single quotes and does not
escape; no verified claim renders a string containing a quote or a
backslash. -/
def pyStr : Py → String
  | Py.none => "None"
  | Py.bool b => if b then "True" else "False"
  | Py.int n => toString n
  | Py.str s => s
  | Py.list xs => "[" ++ pyReprJoin xs ++ "]"
  | Py.dict kvs => "\x7b" ++ pyReprJoinKV kvs ++ "\x7d"

/-- Python `repr(v)` of a decoded value (used for elements inside
containers). -/
def pyRepr : Py → String
  | Py.none => "None"
  | Py.bool b => if b then "True" else "False"
  | Py.int n => toString n
  | Py.str s => squote ++ s ++ squote
  | Py.list xs => "[" ++ pyReprJoin xs ++ "]"
  | Py.dict kvs => "\x7b" ++ pyReprJoinKV kvs ++ "\x7d"

/-- Comma-joined `repr`s of list elements. -/
def pyReprJoin : List Py → String
  | [] => ""
  | [x] => pyRepr x
  | x :: xs => pyRepr x ++ ", " ++ pyReprJoin xs

/-- Comma-joined `repr(k): repr(v)` pairs of dict entries. -/
def pyReprJoinKV : List (String × Py) → String
  | [] => ""
  | [kv] => squote ++ kv.1 ++ squote ++ ": " ++ pyRepr kv.2
  | kv :: kvs => squote ++ kv.1 ++ squote ++ ": " ++ pyRepr kv.2 ++ ", " ++ pyReprJoinKV kvs

end

/-- Python `len(v)`; `Except.error` where Python raises `TypeError`. -/
def pyLen : Py → Except String Nat
  | Py.str s => Except.ok s.length
  | Py.list xs => Except.ok xs.length
  | Py.dict kvs => Except.ok kvs.length
  | _ => Except.error "TypeError: object has no len()"

/-- Python iteration (`for x in v`); strings yield their characters, dicts
their keys; `Except.error` where Python raises `TypeError`. -/
def pyIter : Py → Except String (List Py)
  | Py.list xs => Except.ok xs
  | Py.str s => Except.ok (s.data.map (fun c => Py.str (String.singleton c)))
  | Py.dict kvs => Except.ok (kvs.map (fun kv => Py.str kv.1))
  | _ => Except.error "TypeError: object is not iterable"

/-! ## Formatting helpers (`utils/formatting.py`) -/

/-- Python `"\n".join(lines)`. -/
def joinLines : List String → String
  | [] => ""
  | [l] => l
  | l :: ls => l ++ "\n" ++ joinLines ls

/-- `s.replace("Z", "+00:00")` at character level. -/
def replaceZ : List Char → List Char
  | [] => []
  | c :: cs =>
    if c = 'Z' then '+' :: '0' :: '0' :: ':' :: '0' :: '0' :: replaceZ cs
    else c :: replaceZ cs

/-- Numeric value of two digit characters. -/
def twoDigits (a b : Char) : Nat := digitVal a * 10 + digitVal b

/-- Render `strftime("%Y-%m-%d %H:%M:%S")` from already-validated digit
characters. -/
def renderDT (y1 y2 y3 y4 m1 m2 d1 d2 h1 h2 mi1 mi2 s1 s2 : Char) : String :=
  String.mk [y1, y2, y3, y4, '-', m1, m2, '-', d1, d2, ' ',
             h1, h2, ':', mi1, mi2, ':', s1, s2]

/-- A `±HH:MM` UTC-offset suffix as `fromisoformat` accepts it. -/
def validOffset : List Char → Bool
  | [sign, o1, o2, c, o3, o4] =>
    (sign == '+' || sign == '-') && c == ':' &&
    o1.isDigit && o2.isDigit && o3.isDigit && o4.isDigit &&
    decide (twoDigits o1 o2 < 24) && decide (twoDigits o3 o4 < 60)
  | _ => false

/-- Time-of-day (and optional offset) part of the ISO parse; returns the
`%Y-%m-%d %H:%M:%S` rendering on success. -/
def parseIsoTail (y1 y2 y3 y4 m1 m2 d1 d2 : Char) : List Char → Option String
  | [] => some (renderDT y1 y2 y3 y4 m1 m2 d1 d2 '0' '0' '0' '0' '0' '0')
  | sep :: h1 :: h2 :: ':' :: mi1 :: mi2 :: rest2 =>
    if (sep == 'T' || sep == ' ') && h1.isDigit && h2.isDigit && mi1.isDigit && mi2.isDigit
        && decide (twoDigits h1 h2 < 24) && decide (twoDigits mi1 mi2 < 60) then
      match rest2 with
      | [] => some (renderDT y1 y2 y3 y4 m1 m2 d1 d2 h1 h2 mi1 mi2 '0' '0')
      | ':' :: s1 :: s2 :: rest3 =>
        if s1.isDigit && s2.isDigit && decide (twoDigits s1 s2 < 60) then
          if rest3.isEmpty || validOffset rest3 then
            some (renderDT y1 y2 y3 y4 m1 m2 d1 d2 h1 h2 mi1 mi2 s1 s2)
          else none
        else none
      | off =>
        if validOffset off then
          some (renderDT y1 y2 y3 y4 m1 m2 d1 d2 h1 h2 mi1 mi2 '0' '0')
        else none
    else none
  | _ => none

/-- `datetime.fromisoformat` followed by `strftime("%Y-%m-%d %H:%M:%S")`,
for the common subset of ISO-8601 forms: `YYYY-MM-DD`, optionally followed
by `T` or a space and `HH:MM[:SS]`, optionally followed by a `±HH:MM`
offset (which `Z` is rewritten to beforehand).  Fractional seconds and
other exotic forms accepted by CPython 3.11+ are treated as unparseable
here; no verified claim exercises them and a failed parse only echoes the
input back. -/
def parseIsoRender : List Char → Option String
  | y1 :: y2 :: y3 :: y4 :: '-' :: m1 :: m2 :: '-' :: d1 :: d2 :: rest =>
    if y1.isDigit && y2.isDigit && y3.isDigit && y4.isDigit && m1.isDigit && m2.isDigit
        && d1.isDigit && d2.isDigit &&
        (let y := digitVal y1 * 1000 + digitVal y2 * 100 + digitVal y3 * 10 + digitVal y4
         let m := twoDigits m1 m2
         let d := twoDigits d1 d2
         decide (1 ≤ y) && decide (1 ≤ m) && decide (m ≤ 12) && decide (1 ≤ d) &&
         decide (d ≤ daysInMonth y m)) then
      parseIsoTail y1 y2 y3 y4 m1 m2 d1 d2 rest
    else none
  | _ => none

/-- `_format_datetime` from `utils/formatting.py`: `None` renders `"N/A"`,
a string is parsed as ISO (after replacing `Z` by `+00:00`) and rendered
`%Y-%m-%d %H:%M:%S`, an unparseable string is echoed back, anything else
renders `str(value)`.  (The `datetime` instance branch is unreachable for
decoded JSON.) -/
def fmtDatetime : Py → String
  | Py.none => "N/A"
  | Py.str s =>
    match parseIsoRender (replaceZ s.data) with
    | some out => out
    | Option.none => s
  | v => pyStr v

/-- Duration rendering `{h}h {m}m {s}s` for an integer number of seconds
(Python `//` and `%` are floor division and modulo). -/
def renderDur (n : Int) : String :=
  let hours := Int.fdiv n 3600
  let minutes := Int.fdiv (Int.fmod n 3600) 60
  let secs := Int.fmod n 60
  if 0 < hours then
    toString hours ++ "h " ++ toString minutes ++ "m " ++ toString secs ++ "s"
  else if 0 < minutes then toString minutes ++ "m " ++ toString secs ++ "s"
  else toString secs ++ "s"

/-- `_format_duration`: `None` renders `"N/A"`; numbers are rendered by
`renderDur` (a Python `bool` is an `int` 1/0 there); `//` on any other
type raises `TypeError`. -/
def fmtDuration : Py → Except String String
  | Py.none => Except.ok "N/A"
  | Py.int n => Except.ok (renderDur n)
  | Py.bool b => Except.ok (renderDur (if b then 1 else 0))
  | _ => Except.error "TypeError: unsupported operand type for //"

/-- `f"{meters / 1000:.2f} km"` for an integer `n ≥ 1000`: the exact
rational `n/1000` rounded half-even to two decimals.  (Floats are modelled
as exact rationals.) -/
def renderKm (n : Nat) : String :=
  let q := n / 10
  let r := n % 10
  let rounded := if 5 < r ∨ (r = 5 ∧ q % 2 = 1) then q + 1 else q
  toString (rounded / 100) ++ "." ++ String.mk (fmt2 (rounded % 100)) ++ " km"

/-- `_format_distance`: `None` renders `"N/A"`; `>= 1000` metres renders
as kilometres with two decimals, below that as `f"{meters:.0f} m"`;
comparing any other type with an int raises `TypeError`. -/
def fmtDistance : Py → Except String String
  | Py.none => Except.ok "N/A"
  | Py.int n =>
    Except.ok (if 1000 ≤ n then renderKm n.toNat else toString n ++ " m")
  | Py.bool b => Except.ok ((if b then "1" else "0") ++ " m")
  | _ => Except.error "TypeError: not supported between instances"

/-- `_get_value(data, key, default)`: `None` or missing yields the
default, otherwise `str(value)`. -/
def getValueD (kvs : List (String × Py)) (key : String) (dflt : String) : String :=
  match List.lookup key kvs with
  | some Py.none => dflt
  | some v => pyStr v
  | Option.none => dflt

/-- `_get_value` with its `"N/A"` default. -/
def getValue (kvs : List (String × Py)) (key : String) : String :=
  getValueD kvs key "N/A"

/-- `f"{v:.2f}"`: two fixed decimals; defined for numbers, `TypeError`
otherwise. -/
def pyFmt2f : Py → Except String String
  | Py.int n => Except.ok (toString n ++ ".00")
  | Py.bool b => Except.ok (if b then "1.00" else "0.00")
  | _ => Except.error "TypeError: unsupported format string"

/-- `f"{v:.1f}"`: one fixed decimal; defined for numbers, `TypeError`
otherwise. -/
def pyFmt1f : Py → Except String String
  | Py.int n => Except.ok (toString n ++ ".0")
  | Py.bool b => Except.ok (if b then "1.0" else "0.0")
  | _ => Except.error "TypeError: unsupported format string"

/-- Python truthiness of `d.get(k)`. -/
def truthyKey (kvs : List (String × Py)) (k : String) : Bool :=
  !pyFalsy (wget kvs k)

/-- Description truncation in `format_event_summary`:
`event["description"][:100] + "..." if len(event["description"]) > 100
else event["description"]`, with `TypeError` exactly where Python
raises (no `len`, or slice/concat on a non-string). -/
def truncDesc (v : Py) : Except String Py :=
  match v with
  | Py.str s => Except.ok (Py.str (if 100 < s.length then s.take 100 ++ "..." else s))
  | other => do
    let n ← pyLen other
    if 100 < n then Except.error "TypeError: cannot concatenate" else Except.ok other

/-- `format_workout_summary` from `utils/formatting.py`. -/
def format_workout_summary (w : List (String × Py)) : Except String String := do
  let start_time := fmtDatetime (wget w "start_time")
  let duration ← fmtDuration (wget w "duration_total_seconds")
  let distance ← fmtDistance (wget w "distance_meters")
  let lines := ["Workout: " ++ pyStr (wgetD w "name" (Py.str "Unnamed")),
    "  Type: " ++ pyStr (wgetD w "workout_type" (Py.str "Unknown")),
    "  Date: " ++ start_time,
    "  Duration: " ++ duration,
    "  Distance: " ++ distance]
  let lines := if truthyKey w "power_normalized" then
      lines ++ ["  Norm Power: " ++ pyStr (wget w "power_normalized") ++ " W"] else lines
  let lines := if truthyKey w "training_stress_score" then
      lines ++ ["  Load: " ++ pyStr (wget w "training_stress_score")] else lines
  let lines ← if truthyKey w "intensity_factor" then do
      let s ← pyFmt2f (wget w "intensity_factor")
      pure (lines ++ ["  Intensity: " ++ s])
    else pure lines
  pure (joinLines lines)

/-- `format_workout_details` from `utils/formatting.py`. -/
def format_workout_details (w : List (String × Py)) : Except String String := do
  let lines := ["Workout Details:", "", "General Information:",
    "  ID: " ++ pyStr (wgetD w "id" (Py.str "N/A")),
    "  Name: " ++ pyStr (wgetD w "name" (Py.str "Unnamed")),
    "  Type: " ++ pyStr (wgetD w "workout_type" (Py.str "Unknown")),
    "  Status: " ++ pyStr (wgetD w "status" (Py.str "N/A")),
    "  Start Time: " ++ fmtDatetime (wget w "start_time"),
    "  End Time: " ++ fmtDatetime (wget w "end_time")]
  let lines := if truthyKey w "description" then
      lines ++ ["  Description: " ++ pyStr (wget w "description")] else lines
  let lines := lines ++ [""]
  let durTotal ← fmtDuration (wget w "duration_total_seconds")
  let durActive ← fmtDuration (wget w "duration_active_seconds")
  let durPaused ← fmtDuration (wget w "duration_paused_seconds")
  let lines := lines ++ ["Duration:", "  Total: " ++ durTotal,
    "  Active: " ++ durActive, "  Paused: " ++ durPaused, ""]
  let dist ← fmtDistance (wget w "distance_meters")
  let lines := lines ++ ["Distance & Elevation:", "  Distance: " ++ dist,
    "  Elevation Gain: " ++ getValue w "elevation_gain" ++ " m",
    "  Elevation Loss: " ++ getValue w "elevation_loss" ++ " m", ""]
  let lines := lines ++ ["Speed:",
    "  Average Speed: " ++ getValue w "speed_average" ++ " m/s",
    "  Max Speed: " ++ getValue w "speed_max" ++ " m/s", ""]
  let lines := lines ++ ["Power:",
    "  Average Power: " ++ getValue w "power_average" ++ " W",
    "  Max Power: " ++ getValue w "power_max" ++ " W",
    "  Norm Power: " ++ getValue w "power_normalized" ++ " W",
    "  5-min Max Power: " ++ getValue w "power_5min_max" ++ " W",
    "  Estimated FTP: " ++ getValue w "estimated_ftp" ++ " W",
    "  Intensity: " ++ getValue w "intensity_factor",
    "  L/R Balance: " ++ getValue w "left_right_balance", ""]
  let lines := lines ++ ["Heart Rate:",
    "  Average HR: " ++ getValue w "heart_rate_average" ++ " bpm",
    "  Max HR: " ++ getValue w "heart_rate_max" ++ " bpm",
    "  HR Recovery: " ++ getValue w "best_vagal_rebound", ""]
  let lines := lines ++ ["Training Metrics:",
    "  Load: " ++ getValue w "training_stress_score",
    "  Efficiency Factor: " ++ getValue w "efficiency_factor",
    "  Estimated VO2max: " ++ getValue w "estimated_vo2max",
    "  Power:HR Ratio: " ++ getValue w "power_hr_ratio",
    "  Cadence: " ++ getValue w "cadence_average" ++ " rpm", ""]
  let lines := lines ++ ["Energy:",
    "  Calories: " ++ getValue w "calories",
    "  Work (Joules): " ++ getValue w "work_joules",
    "  Carb Intake: " ++ getValue w "carbohydrate_intake" ++ " g",
    "  Carb Used: " ++ getValue w "carbohydrate_used" ++ " g", ""]
  let lines := if truthyKey w "feel" || truthyKey w "perceived_exertion" then
      let lines := lines ++ ["Subjective:"]
      let lines := if truthyKey w "feel" then
          lines ++ ["  Feel: " ++ pyStr (wget w "feel")] else lines
      let lines := if truthyKey w "perceived_exertion" then
          lines ++ ["  RPE: " ++ pyStr (wget w "perceived_exertion") ++ "/10"] else lines
      lines ++ [""]
    else lines
  let lines := lines ++ ["Source:", "  Source: " ++ getValue w "source",
    "  Created: " ++ fmtDatetime (wget w "created_at"),
    "  Updated: " ++ fmtDatetime (wget w "updated_at")]
  pure (joinLines lines)

/-- `format_wellness_entry` from `utils/formatting.py`. -/
def format_wellness_entry (e : List (String × Py)) : Except String String := do
  let date_value := wgetD e "date" (wgetD e "id" (Py.str "N/A"))
  let lines := ["Wellness Entry:", "  Date: " ++ pyStr date_value,
    "  ID: " ++ pyStr (wgetD e "id" (Py.str "N/A")), ""]
  let bm1 ← if isNotNone (wget e "weight_kg") then do
      let s ← pyFmt1f (wget e "weight_kg")
      pure ["  Weight: " ++ s ++ " kg"]
    else pure []
  let bm2 ← if isNotNone (wget e "body_fat_percentage") then do
      let s ← pyFmt1f (wget e "body_fat_percentage")
      pure ["  Body Fat: " ++ s ++ "%"]
    else pure []
  let bm3 ← if isNotNone (wget e "hydration_kg") then do
      let s ← pyFmt1f (wget e "hydration_kg")
      pure ["  Hydration: " ++ s ++ " kg"]
    else pure []
  let body_metrics := bm1 ++ bm2 ++ bm3
  let lines := if body_metrics.isEmpty then lines
    else lines ++ ["Body Metrics:"] ++ body_metrics ++ [""]
  let rm1 ← if isNotNone (wget e "sleep_hours") then do
      let s ← pyFmt1f (wget e "sleep_hours")
      pure ["  Sleep: " ++ s ++ " hours"]
    else pure []
  let rm2 := if isNotNone (wget e "resting_hr") then
      ["  Resting HR: " ++ pyStr (wget e "resting_hr") ++ " bpm"] else []
  let rm3 := if isNotNone (wget e "hrv_rmssd") then
      ["  HRV (RMSSD): " ++ pyStr (wget e "hrv_rmssd")] else []
  let rm4 := if isNotNone (wget e "readiness_score") then
      ["  Readiness Score: " ++ pyStr (wget e "readiness_score")] else []
  let rm5 ← if isNotNone (wget e "vo2max") then do
      let s ← pyFmt1f (wget e "vo2max")
      pure ["  VO2max: " ++ s ++ " ml/kg/min"]
    else pure []
  let recovery_metrics := rm1 ++ rm2 ++ rm3 ++ rm4 ++ rm5
  let lines := if recovery_metrics.isEmpty then lines
    else lines ++ ["Recovery Metrics:"] ++ recovery_metrics ++ [""]
  let b1 ← if isNotNone (wget e "hrv_rmssd_baseline") then do
      let s ← pyFmt1f (wget e "hrv_rmssd_baseline")
      pure ["  HRV Baseline: " ++ s]
    else pure []
  let b2 ← if isNotNone (wget e "resting_hr_baseline") then do
      let s ← pyFmt1f (wget e "resting_hr_baseline")
      pure ["  Resting HR Baseline: " ++ s ++ " bpm"]
    else pure []
  let b3 ← if isNotNone (wget e "sleep_baseline") then do
      let s ← pyFmt1f (wget e "sleep_baseline")
      pure ["  Sleep Baseline: " ++ s ++ " hours"]
    else pure []
  let b4 ← if isNotNone (wget e "hydration_baseline") then do
      let s ← pyFmt1f (wget e "hydration_baseline")
      pure ["  Hydration Baseline: " ++ s ++ "%"]
    else pure []
  let b5 ← if isNotNone (wget e "vo2max_baseline") then do
      let s ← pyFmt1f (wget e "vo2max_baseline")
      pure ["  VO2max Baseline: " ++ s ++ " ml/kg/min"]
    else pure []
  let baselines := b1 ++ b2 ++ b3 ++ b4 ++ b5
  let lines := if baselines.isEmpty then lines
    else lines ++ ["7-Day Baselines:"] ++ baselines ++ [""]
  pure (joinLines lines)

/-- `format_event_summary` from `utils/formatting.py`. -/
def format_event_summary (e : List (String × Py)) : Except String String := do
  let event_date := fmtDatetime (wget e "event_date")
  let lines := ["Event: " ++ pyStr (wgetD e "name" (Py.str "Unnamed")),
    "  ID: " ++ pyStr (wgetD e "id" (Py.str "N/A")),
    "  Date: " ++ event_date,
    "  Type: " ++ pyStr (wgetD e "event_type" (Py.str "Unknown")),
    "  Status: " ++ pyStr (wgetD e "status" (Py.str "N/A"))]
  let lines := if truthyKey e "location" then
      lines ++ ["  Location: " ++ pyStr (wget e "location")] else lines
  let lines := if truthyKey e "distance_km" then
      lines ++ ["  Distance: " ++ pyStr (wget e "distance_km") ++ " km"] else lines
  let lines ← if truthyKey e "description" then do
      let d ← truncDesc (wget e "description")
      pure (lines ++ ["  Description: " ++ pyStr d])
    else pure lines
  pure (joinLines lines)

/-- `format_event_details` from `utils/formatting.py`. -/
def format_event_details (e : List (String × Py)) : Except String String := do
  let lines := ["Event Details:", "", "General Information:",
    "  Name: " ++ pyStr (wgetD e "name" (Py.str "Unnamed")),
    "  ID: " ++ pyStr (wgetD e "id" (Py.str "N/A")),
    "  Date: " ++ fmtDatetime (wget e "event_date"),
    "  Type: " ++ pyStr (wgetD e "event_type" (Py.str "Unknown")),
    "  Category: " ++ getValue e "category",
    "  Status: " ++ pyStr (wgetD e "status" (Py.str "N/A"))]
  let lines := if truthyKey e "location" then
      lines ++ ["  Location: " ++ pyStr (wget e "location")] else lines
  let lines := if truthyKey e "description" then
      lines ++ ["  Description: " ++ pyStr (wget e "description")] else lines
  let lines := lines ++ [""]
  let c1 := if truthyKey e "distance_km" then
      ["  Distance: " ++ pyStr (wget e "distance_km") ++ " km"] else []
  let c2 := if truthyKey e "elevation_gain_m" then
      ["  Elevation Gain: " ++ pyStr (wget e "elevation_gain_m") ++ " m"] else []
  let c3 := if truthyKey e "duration_minutes" then
      ["  Duration: " ++ pyStr (wget e "duration_minutes") ++ " min"] else []
  let course_info := c1 ++ c2 ++ c3
  let lines := if course_info.isEmpty then lines
    else lines ++ ["Course Details:"] ++ course_info ++ [""]
  let t1 := if truthyKey e "target_tss" then
      ["  Target TSS: " ++ pyStr (wget e "target_tss")] else []
  let t2 ← if truthyKey e "target_intensity_factor" then do
      let s ← pyFmt2f (wget e "target_intensity_factor")
      pure ["  Target IF: " ++ s]
    else pure []
  let t3 := if truthyKey e "target_power_watts" then
      ["  Target Power: " ++ pyStr (wget e "target_power_watts") ++ " W"] else []
  let t4 := if truthyKey e "estimated_calories" then
      ["  Est. Calories: " ++ pyStr (wget e "estimated_calories")] else []
  let t5 := if truthyKey e "estimated_carbs" then
      ["  Est. Carbs: " ++ pyStr (wget e "estimated_carbs") ++ " g"] else []
  let targets := t1 ++ t2 ++ t3 ++ t4 ++ t5
  let lines := if targets.isEmpty then lines
    else lines ++ ["Targets & Estimates:"] ++ targets ++ [""]
  let g1 := if isNotNone (wget e "auto_calculate_intensity") then
      ["  Auto Calculate Intensity: " ++
        (if !pyFalsy (wget e "auto_calculate_intensity") then "Yes" else "No")] else []
  let g2 := if isNotNone (wget e "include_drafting") then
      ["  Include Drafting: " ++
        (if !pyFalsy (wget e "include_drafting") then "Yes" else "No")] else []
  let stgs := g1 ++ g2
  let lines := if stgs.isEmpty then lines else lines ++ ["Settings:"] ++ stgs ++ [""]
  let l1 := if truthyKey e "event_website" then
      ["  Website: " ++ pyStr (wget e "event_website")] else []
  let l2 := if truthyKey e "registration_url" then
      ["  Registration: " ++ pyStr (wget e "registration_url")] else []
  let l3 := if truthyKey e "results_url" then
      ["  Results: " ++ pyStr (wget e "results_url")] else []
  let links := l1 ++ l2 ++ l3
  let lines := if links.isEmpty then lines else lines ++ ["Links:"] ++ links ++ [""]
  let lines := if truthyKey e "notes" then
      lines ++ ["Notes: " ++ pyStr (wget e "notes"), ""] else lines
  let lines := lines ++ ["Metadata:"]
  let lines := if truthyKey e "workout_id" then
      lines ++ ["  Linked Workout ID: " ++ pyStr (wget e "workout_id")] else lines
  let lines := lines ++ ["  Created: " ++ fmtDatetime (wget e "created_at"),
    "  Updated: " ++ fmtDatetime (wget e "updated_at")]
  pure (joinLines lines)

/-! ## Tool handlers (`tools/workouts.py`, `tools/events.py`, `tools/wellness.py`) -/

/-- Query-parameter construction in `get_workouts`: resolve dates (default
window 30 days), clamp `limit` to `[1, 250]` and `offset` to `[0, ∞)`, add
the resolved dates when truthy (they always are after resolution, but the
source still guards).  Returned in Python dict insertion order. -/
def get_workouts_params (start_date end_date : Option String) (limit offset : Int)
    (today : Int) : List (String × Py) :=
  let r := resolve_date_params start_date end_date 30 today
  let params := [("limit", Py.int (min (max limit 1) 250)),
                 ("offset", Py.int (max offset 0))]
  let params := if r.1.isEmpty then params else params ++ [("start_date", Py.str r.1)]
  let params := if r.2.isEmpty then params else params ++ [("end_date", Py.str r.2)]
  params

/-- Query-parameter construction in `get_events` (same shape as
`get_workouts`). -/
def get_events_params (start_date end_date : Option String) (limit offset : Int)
    (today : Int) : List (String × Py) :=
  let r := resolve_date_params start_date end_date 30 today
  let params := [("limit", Py.int (min (max limit 1) 250)),
                 ("offset", Py.int (max offset 0))]
  let params := if r.1.isEmpty then params else params ++ [("start_date", Py.str r.1)]
  let params := if r.2.isEmpty then params else params ++ [("end_date", Py.str r.2)]
  params

/-- Query-parameter construction in `get_wellness` (dates only, no
pagination). -/
def get_wellness_params (start_date end_date : Option String) (today : Int) :
    List (String × Py) :=
  let r := resolve_date_params start_date end_date 30 today
  let params : List (String × Py) := []
  let params := if r.1.isEmpty then params else params ++ [("start_date", Py.str r.1)]
  let params := if r.2.isEmpty then params else params ++ [("end_date", Py.str r.2)]
  params

/-- `isinstance(result, dict) and "error" in result`: the error test every
handler applies to the Gateway result. -/
def isErrorResult : Py → Bool
  | Py.dict kvs => hasKey kvs "error"
  | _ => false

/-- `result.get("message", "Unknown error")` on an error result. -/
def errMessage : Py → Py
  | Py.dict kvs => wgetD kvs "message" (Py.str "Unknown error")
  | _ => Py.str "Unknown error"

/-- Item-list unwrapping shared by the three list handlers:
`result.get(field, [])` for a dict, the list itself for a list, `[]` for
anything else. -/
def unwrapItems (field : String) (result : Py) : Py :=
  match result with
  | Py.dict kvs => wgetD kvs field (Py.list [])
  | Py.list _ => result
  | _ => Py.list []

/-- Total unwrapping shared by the three list handlers:
`result.get("total", len(items))` for a dict (Python evaluates
`len(items)` eagerly, so a non-sized field value raises even when a
`total` key is present), `len(result)` for a list, `0` otherwise. -/
def unwrapTotal (field : String) (result : Py) : Except String Py :=
  match result with
  | Py.dict kvs => do
    let l ← pyLen (unwrapItems field result)
    pure (wgetD kvs "total" (Py.int l))
  | Py.list xs => pure (Py.int (xs.length : Int))
  | _ => pure (Py.int 0)

/-- The `for workout in workouts:` loop body of `_format_workouts_response`:
a dict renders its summary plus `"\n"`, anything else an
`Invalid workout format:` line plus `"\n\n"`. -/
def render_workout_items : List Py → Except String String
  | [] => pure ""
  | it :: rest => do
    let piece ← match it with
      | Py.dict w => do
        let s ← format_workout_summary w
        pure (s ++ "\n")
      | other => pure ("Invalid workout format: " ++ pyStr other ++ "\n\n")
    let tl ← render_workout_items rest
    pure (piece ++ tl)

/-- `_format_workouts_response(workouts, total)` from `tools/workouts.py`. -/
def format_workouts_response (workouts total : Py) : Except String String :=
  if pyFalsy workouts then pure "No workouts found in the specified date range."
  else do
    let n ← pyLen workouts
    let items ← pyIter workouts
    let body ← render_workout_items items
    pure ("Workouts (" ++ toString n ++ " of " ++ pyStr total ++ " total):\n\n" ++ body)

/-- The loop body of `_format_events_response` (summaries are followed by
`"\n\n"`). -/
def render_event_items : List Py → Except String String
  | [] => pure ""
  | it :: rest => do
    let piece ← match it with
      | Py.dict ev => do
        let s ← format_event_summary ev
        pure (s ++ "\n\n")
      | other => pure ("Invalid event format: " ++ pyStr other ++ "\n\n")
    let tl ← render_event_items rest
    pure (piece ++ tl)

/-- `_format_events_response(events, total)` from `tools/events.py`. -/
def format_events_response (events total : Py) : Except String String :=
  if pyFalsy events then pure "No events found in the specified date range."
  else do
    let n ← pyLen events
    let items ← pyIter events
    let body ← render_event_items items
    pure ("Events (" ++ toString n ++ " of " ++ pyStr total ++ " total):\n\n" ++ body)

/-- The loop body of `_format_wellness_response`. -/
def render_wellness_items : List Py → Except String String
  | [] => pure ""
  | it :: rest => do
    let piece ← match it with
      | Py.dict en => do
        let s ← format_wellness_entry en
        pure (s ++ "\n\n")
      | other => pure ("Invalid wellness entry format: " ++ pyStr other ++ "\n\n")
    let tl ← render_wellness_items rest
    pure (piece ++ tl)

/-- `_format_wellness_response(wellness_data, total)` from
`tools/wellness.py`. -/
def format_wellness_response (wellness_data total : Py) : Except String String :=
  if pyFalsy wellness_data then pure "No wellness data found in the specified date range."
  else do
    let n ← pyLen wellness_data
    let items ← pyIter wellness_data
    let body ← render_wellness_items items
    pure ("Wellness Data (" ++ toString n ++ " of " ++ pyStr total ++ " total):\n\n" ++ body)

/-- Result processing of `get_workouts` after the Gateway call: error
check, response unwrapping, formatting.  Total functions model the source
returning normally; an `Except.error` marks inputs where the Python body
would raise. -/
def get_workouts_respond (result : Py) : Except String String :=
  if isErrorResult result then
    pure ("Error fetching workouts: " ++ pyStr (errMessage result))
  else do
    let workouts := unwrapItems "workouts" result
    let total ← unwrapTotal "workouts" result
    format_workouts_response workouts total

/-- Result processing of `get_events` after the Gateway call. -/
def get_events_respond (result : Py) : Except String String :=
  if isErrorResult result then
    pure ("Error fetching events: " ++ pyStr (errMessage result))
  else do
    let events := unwrapItems "events" result
    let total ← unwrapTotal "events" result
    format_events_response events total

/-- Result processing of `get_wellness` after the Gateway call. -/
def get_wellness_respond (result : Py) : Except String String :=
  if isErrorResult result then
    pure ("Error fetching wellness data: " ++ pyStr (errMessage result))
  else do
    let wellness_data := unwrapItems "wellness" result
    let total ← unwrapTotal "wellness" result
    format_wellness_response wellness_data total

/-- Result processing of `get_workout_details` after the Gateway call:
error dict, then falsy payload, then non-dict payload, then the full
rendering. -/
def get_workout_details_respond (workout_id : Int) (result : Py) : Except String String :=
  if isErrorResult result then
    pure ("Error fetching workout details: " ++ pyStr (errMessage result))
  else if pyFalsy result then
    pure ("No details found for workout " ++ toString workout_id ++ ".")
  else
    match result with
    | Py.dict w => format_workout_details w
    | _ => pure ("Invalid workout format for workout " ++ toString workout_id ++ ".")

/-- Result processing of `get_event_details` after the Gateway call. -/
def get_event_details_respond (event_id : Int) (result : Py) : Except String String :=
  if isErrorResult result then
    pure ("Error fetching event details: " ++ pyStr (errMessage result))
  else if pyFalsy result then
    pure ("No details found for event " ++ toString event_id ++ ".")
  else
    match result with
    | Py.dict ev => format_event_details ev
    | _ => pure ("Invalid event format for event " ++ toString event_id ++ ".")

/-! ## Generic infrastructure for the claim statements -/

instance instDecEqExcept {α β : Type} [DecidableEq α] [DecidableEq β] :
    DecidableEq (Except α β) := fun a b =>
  match a, b with
  | Except.ok x, Except.ok y =>
    if h : x = y then Decidable.isTrue (by rw [h])
    else Decidable.isFalse (fun he => h (by cases he; rfl))
  | Except.error x, Except.error y =>
    if h : x = y then Decidable.isTrue (by rw [h])
    else Decidable.isFalse (fun he => h (by cases he; rfl))
  | Except.ok _, Except.error _ => Decidable.isFalse (fun he => by cases he)
  | Except.error _, Except.ok _ => Decidable.isFalse (fun he => by cases he)

/-- `needle` occurs contiguously inside `hay`. -/
def strContains (needle hay : String) : Prop :=
  ∃ a b : List Char, hay.data = a ++ (needle.data ++ b)

/-! ## The claims -/

/-- C1: for every integer `limit` and `offset` passed to `get_workouts` or
`get_events`, the query parameters handed to the Gateway carry
`min(max(limit, 1), 250)` as the limit and `max(offset, 0)` as the offset;
out-of-range input is clamped to the nearest boundary (1 below, 250 above
for the limit; 0 below for the offset), never rejected. -/
theorem claim_C1_pagination_clamped (sd ed : Option String) (limit offset today : Int) :
    List.lookup "limit" (get_workouts_params sd ed limit offset today) =
      some (Py.int (min (max limit 1) 250)) ∧
    List.lookup "offset" (get_workouts_params sd ed limit offset today) =
      some (Py.int (max offset 0)) ∧
    List.lookup "limit" (get_events_params sd ed limit offset today) =
      some (Py.int (min (max limit 1) 250)) ∧
    List.lookup "offset" (get_events_params sd ed limit offset today) =
      some (Py.int (max offset 0)) ∧
    min (max limit 1) 250 = (if limit < 1 then 1 else if 250 < limit then 250 else limit) ∧
    max offset 0 = (if offset < 0 then 0 else offset) := by
  refine ⟨?_, ?_, ?_, ?_, ?_, ?_⟩
  · simp only [get_workouts_params]
    split_ifs <;> rfl
  · simp only [get_workouts_params]
    split_ifs <;> rfl
  · simp only [get_events_params]
    split_ifs <;> rfl
  · simp only [get_events_params]
    split_ifs <;> rfl
  · split_ifs <;> omega
  · split_ifs <;> omega

/-- C2: when `start_date` is absent the resolver returns the current UTC
date minus `default_start_days_ago` days (30 at every call site), and when
`end_date` is absent it returns the current UTC date plus one day
(tomorrow, not today), both rendered `YYYY-MM-DD`. -/
theorem claim_C2_default_dates (d today : Int) (sd ed : Option String) :
    (parse_date_range none ed d today).1 = get_default_start_date d today ∧
    get_default_start_date d today = strftimeDate (today - d) ∧
    (parse_date_range sd none d today).2 = get_default_end_date today ∧
    get_default_end_date today = strftimeDate (today + 1) ∧
    resolve_date_params none none 30 today =
      (strftimeDate (today - 30), strftimeDate (today + 1)) :=
  ⟨rfl, rfl, rfl, rfl, rfl⟩

/-- C7 counterexample: an empty string is a supplied value that the
resolver does not pass through unchanged — `if not start_date` treats `""`
like an absent argument and replaces it with the computed default
(739063 is the ordinal of 2024-06-26). -/
theorem claim_C7_counterexample :
    parse_date_range (some "") (some "2024-01-02") 30 739063 ≠ ("", "2024-01-02") := by
  decide

/-- C7 as amended: for every pair of supplied NON-EMPTY start and end date
strings, the resolver returns exactly that pair unchanged; it only fills
gaps (where a supplied empty string counts as a gap, by Python
truthiness) and does not alter supplied non-empty values. -/
theorem claim_C7_pass_through (s e : String) (hs : s.isEmpty = false)
    (he : e.isEmpty = false) (d today : Int) :
    parse_date_range (some s) (some e) d today = (s, e) := by
  simp [parse_date_range, strOptFalsy, hs, he]

theorem claim_C7_pass_through_witness :
    "2024-01-01".isEmpty = false ∧ "2024-02-02".isEmpty = false ∧
    parse_date_range (some "2024-01-01") (some "2024-02-02") 30 739063 =
      ("2024-01-01", "2024-02-02") :=
  ⟨rfl, rfl, claim_C7_pass_through "2024-01-01" "2024-02-02" rfl rfl 30 739063⟩

/-- C8 counterexample: supplied values are passed through unvalidated, so
the returned range need not be parseable — `("garbage", "junk")` comes
back verbatim and is not a `YYYY-MM-DD` date. -/
theorem claim_C8_counterexample :
    parse_date_range (some "garbage") (some "junk") 30 739063 = ("garbage", "junk") ∧
    isValidYMD "garbage" = false := by
  constructor
  · decide
  · decide

/-- C8 as amended: for every input (with the computed ordinals inside
CPython's representable date range), the resolver returns a complete
range — both fields present and non-empty, never a partial range; every
field the resolver fills in (absent or empty input) is a parseable
`YYYY-MM-DD` calendar date; supplied non-empty fields are passed through
verbatim and are not validated. -/
theorem claim_C8_total_range (sd ed : Option String) (d today : Int)
    (h1 : 1 ≤ today - d) (h2 : today - d ≤ 3652059)
    (h3 : 1 ≤ today + 1) (h4 : today + 1 ≤ 3652059) :
    (parse_date_range sd ed d today).1 ≠ "" ∧
    (parse_date_range sd ed d today).2 ≠ "" ∧
    (strOptFalsy sd = true →
      isValidYMD (parse_date_range sd ed d today).1 = true) ∧
    (strOptFalsy ed = true →
      isValidYMD (parse_date_range sd ed d today).2 = true) ∧
    (strOptFalsy sd = false → some (parse_date_range sd ed d today).1 = sd) ∧
    (strOptFalsy ed = false → some (parse_date_range sd ed d today).2 = ed) := by
  have hvs : isValidYMD (get_default_start_date d today) = true := by
    unfold get_default_start_date strftimeDate
    apply formatYMD_valid <;> omega
  have hve : isValidYMD (get_default_end_date today) = true := by
    unfold get_default_end_date strftimeDate
    apply formatYMD_valid <;> omega
  have hlen : ∀ n : Nat, formatYMD n ≠ "" := by
    intro n hcontra
    have := congrArg (fun s => s.data.length) hcontra
    simp [formatYMD, fmt4, fmt2] at this
  have hne : ∀ s : String, s.isEmpty = false → s ≠ "" := by
    intro s h hcontra
    subst hcontra
    exact absurd h (by decide)
  have hopt : ∀ o : Option String, strOptFalsy o = false →
      ∃ s, o = some s ∧ s.isEmpty = false := by
    intro o h
    cases o with
    | none => simp [strOptFalsy] at h
    | some s => exact ⟨s, rfl, by simpa [strOptFalsy] using h⟩
  have hs1 : (parse_date_range sd ed d today).1 =
      if strOptFalsy sd then get_default_start_date d today else sd.getD "" := rfl
  have hs2 : (parse_date_range sd ed d today).2 =
      if strOptFalsy ed then get_default_end_date today else ed.getD "" := rfl
  cases hsd : strOptFalsy sd <;> cases hed : strOptFalsy ed <;>
      rw [hsd] at hs1 <;> rw [hed] at hs2 <;>
      simp only [if_true, if_false, Bool.false_eq_true, Bool.true_eq_false] at hs1 hs2 <;>
      rw [hs1, hs2]
  · obtain ⟨s, rfl, hs⟩ := hopt sd hsd
    obtain ⟨e, rfl, he⟩ := hopt ed hed
    exact ⟨hne _ hs, hne _ he, fun hc => Bool.noConfusion hc, fun hc => Bool.noConfusion hc,
      fun _ => rfl, fun _ => rfl⟩
  · obtain ⟨s, rfl, hs⟩ := hopt sd hsd
    exact ⟨hne _ hs, hlen _, fun hc => Bool.noConfusion hc, fun _ => hve,
      fun _ => rfl, fun hc => Bool.noConfusion hc⟩
  · obtain ⟨e, rfl, he⟩ := hopt ed hed
    exact ⟨hlen _, hne _ he, fun _ => hvs, fun hc => Bool.noConfusion hc,
      fun hc => Bool.noConfusion hc, fun _ => rfl⟩
  · exact ⟨hlen _, hlen _, fun _ => hvs, fun _ => hve,
      fun hc => Bool.noConfusion hc, fun hc => Bool.noConfusion hc⟩

/-- C3: for every Gateway result that is an ErrorResult (a dict carrying an
`"error"` key), each of the five tool handlers returns the one-line string
`"Error fetching <operation>: <message>"` (with `result.get("message",
"Unknown error")` as the message) — a normal return, never a raise and
never a structured error past the handler boundary. -/
theorem claim_C3_error_to_string (kvs : List (String × Py))
    (h : hasKey kvs "error" = true) (wid eid : Int) :
    get_workouts_respond (Py.dict kvs) =
      Except.ok ("Error fetching workouts: " ++
        pyStr (wgetD kvs "message" (Py.str "Unknown error"))) ∧
    get_events_respond (Py.dict kvs) =
      Except.ok ("Error fetching events: " ++
        pyStr (wgetD kvs "message" (Py.str "Unknown error"))) ∧
    get_wellness_respond (Py.dict kvs) =
      Except.ok ("Error fetching wellness data: " ++
        pyStr (wgetD kvs "message" (Py.str "Unknown error"))) ∧
    get_workout_details_respond wid (Py.dict kvs) =
      Except.ok ("Error fetching workout details: " ++
        pyStr (wgetD kvs "message" (Py.str "Unknown error"))) ∧
    get_event_details_respond eid (Py.dict kvs) =
      Except.ok ("Error fetching event details: " ++
        pyStr (wgetD kvs "message" (Py.str "Unknown error"))) := by
  have he : isErrorResult (Py.dict kvs) = true := h
  refine ⟨?_, ?_, ?_, ?_, ?_⟩ <;>
    simp [get_workouts_respond, get_events_respond, get_wellness_respond,
      get_workout_details_respond, get_event_details_respond, he, errMessage,
      Pure.pure, Except.pure]

theorem claim_C3_error_to_string_witness :
    hasKey [("error", Py.str "bad"), ("message", Py.str "boom")] "error" = true ∧
    get_workouts_respond (Py.dict [("error", Py.str "bad"), ("message", Py.str "boom")]) =
      Except.ok "Error fetching workouts: boom" ∧
    get_event_details_respond 7 (Py.dict [("error", Py.str "bad"), ("message", Py.str "boom")]) =
      Except.ok "Error fetching event details: boom" := by
  have h := claim_C3_error_to_string [("error", Py.str "bad"), ("message", Py.str "boom")]
    (by decide) 1 7
  refine ⟨by decide, ?_, ?_⟩
  · rw [h.1]; decide
  · rw [h.2.2.2.2]; decide

/-- C10: any dict payload containing an `"error"` key — including a
well-formed entity that merely happens to carry an `"error"` field — is
classified as an error by the handlers and rendered as
`"Error fetching …: <message>"`, with `"Unknown error"` substituted when no
`"message"` key is present; it is never rendered as data. -/
theorem claim_C10_error_key_classified (kvs : List (String × Py))
    (h : hasKey kvs "error" = true) (wid eid : Int) :
    (hasKey kvs "message" = false →
      get_workouts_respond (Py.dict kvs) =
        Except.ok "Error fetching workouts: Unknown error" ∧
      get_workout_details_respond wid (Py.dict kvs) =
        Except.ok "Error fetching workout details: Unknown error" ∧
      get_event_details_respond eid (Py.dict kvs) =
        Except.ok "Error fetching event details: Unknown error") ∧
    (∀ m, List.lookup "message" kvs = some m →
      get_workouts_respond (Py.dict kvs) =
        Except.ok ("Error fetching workouts: " ++ pyStr m) ∧
      get_workout_details_respond wid (Py.dict kvs) =
        Except.ok ("Error fetching workout details: " ++ pyStr m) ∧
      get_event_details_respond eid (Py.dict kvs) =
        Except.ok ("Error fetching event details: " ++ pyStr m)) := by
  have he : isErrorResult (Py.dict kvs) = true := h
  constructor
  · intro hm
    have hnone : List.lookup "message" kvs = none := by
      cases hl : List.lookup "message" kvs with
      | none => rfl
      | some t => rw [hasKey, hl] at hm; cases hm
    refine ⟨?_, ?_, ?_⟩ <;>
      simp [get_workouts_respond, get_workout_details_respond, get_event_details_respond,
        he, errMessage, wgetD, hnone, pyStr, Pure.pure, Except.pure]
  · intro m hm
    refine ⟨?_, ?_, ?_⟩ <;>
      simp [get_workouts_respond, get_workout_details_respond, get_event_details_respond,
        he, errMessage, wgetD, hm, Pure.pure, Except.pure]

theorem claim_C10_error_key_classified_witness :
    hasKey [("error", Py.str "x"), ("name", Py.str "Ride")] "error" = true ∧
    hasKey [("error", Py.str "x"), ("name", Py.str "Ride")] "message" = false ∧
    get_workouts_respond (Py.dict [("error", Py.str "x"), ("name", Py.str "Ride")]) =
      Except.ok "Error fetching workouts: Unknown error" := by
  refine ⟨by decide, by decide, ?_⟩
  exact ((claim_C10_error_key_classified [("error", Py.str "x"), ("name", Py.str "Ride")]
    (by decide) 1 2).1 (by decide)).1

/-- C4: response unwrapping for the list handlers.  For a dict payload the
item list is the named array field (defaulting to the empty array) and
`total` defaults to that list's length when absent (and is taken verbatim
when present); a bare-array payload is itself the item list with its
length as the total; any other payload shape yields an empty item list
(with total 0). -/
theorem claim_C4_unwrap (field : String) (result : Py) :
    (∀ kvs l, result = Py.dict kvs → wgetD kvs field (Py.list []) = Py.list l →
      unwrapItems field result = Py.list l ∧
      (hasKey kvs "total" = false →
        unwrapTotal field result = Except.ok (Py.int (l.length : Int))) ∧
      (∀ t, List.lookup "total" kvs = some t →
        unwrapTotal field result = Except.ok t)) ∧
    (∀ xs, result = Py.list xs →
      unwrapItems field result = Py.list xs ∧
      unwrapTotal field result = Except.ok (Py.int (xs.length : Int))) ∧
    (isDict result = false → (∀ xs, result ≠ Py.list xs) →
      unwrapItems field result = Py.list [] ∧
      unwrapTotal field result = Except.ok (Py.int 0)) := by
  refine ⟨?_, ?_, ?_⟩
  · rintro kvs l rfl hval
    have hitems : unwrapItems field (Py.dict kvs) = Py.list l := hval
    refine ⟨hitems, ?_, ?_⟩
    · intro hm
      have hnone : List.lookup "total" kvs = none := by
        cases hl : List.lookup "total" kvs with
        | none => rfl
        | some t => rw [hasKey, hl] at hm; cases hm
      simp [unwrapTotal, hitems, pyLen, Bind.bind, Except.bind, wgetD, hnone,
        Pure.pure, Except.pure]
    · intro t ht
      simp [unwrapTotal, hitems, pyLen, Bind.bind, Except.bind, wgetD, ht,
        Pure.pure, Except.pure]
  · rintro xs rfl
    exact ⟨rfl, rfl⟩
  · intro hd hl
    cases result with
    | dict kvs => cases hd
    | list xs => exact absurd rfl (hl xs)
    | none => exact ⟨rfl, rfl⟩
    | bool b => exact ⟨rfl, rfl⟩
    | int n => exact ⟨rfl, rfl⟩
    | str s => exact ⟨rfl, rfl⟩

theorem claim_C4_unwrap_witness :
    unwrapItems "workouts" (Py.dict [("workouts", Py.list [Py.int 7])]) =
      Py.list [Py.int 7] ∧
    unwrapTotal "workouts" (Py.dict [("workouts", Py.list [Py.int 7])]) =
      Except.ok (Py.int 1) ∧
    unwrapItems "workouts" (Py.list [Py.int 7, Py.int 8]) =
      Py.list [Py.int 7, Py.int 8] ∧
    unwrapTotal "workouts" (Py.list [Py.int 7, Py.int 8]) = Except.ok (Py.int 2) ∧
    unwrapItems "workouts" (Py.int 3) = Py.list [] ∧
    unwrapTotal "workouts" (Py.int 3) = Except.ok (Py.int 0) := by
  have h1 := (claim_C4_unwrap "workouts" (Py.dict [("workouts", Py.list [Py.int 7])])).1
    [("workouts", Py.list [Py.int 7])] [Py.int 7] rfl rfl
  have h2 := (claim_C4_unwrap "workouts" (Py.list [Py.int 7, Py.int 8])).2.1
    [Py.int 7, Py.int 8] rfl
  have h3 := (claim_C4_unwrap "workouts" (Py.int 3)).2.2 rfl (fun xs h => by cases h)
  exact ⟨h1.1, h1.2.1 rfl, h2.1, h2.2, h3.1, h3.2⟩

/-- C5: the detail handlers classify every payload four ways in order —
an ErrorResult renders the error string; an empty/falsy payload renders
"No details found for <kind> <id>."; a non-falsy non-dict payload renders
"Invalid <kind> format for <kind> <id>."; any other (truthy dict) payload
is handed to the full structured renderer. -/
theorem claim_C5_detail_outcomes (i : Int) (result : Py) :
    (isErrorResult result = true →
      get_workout_details_respond i result =
        Except.ok ("Error fetching workout details: " ++ pyStr (errMessage result)) ∧
      get_event_details_respond i result =
        Except.ok ("Error fetching event details: " ++ pyStr (errMessage result))) ∧
    (isErrorResult result = false → pyFalsy result = true →
      get_workout_details_respond i result =
        Except.ok ("No details found for workout " ++ toString i ++ ".") ∧
      get_event_details_respond i result =
        Except.ok ("No details found for event " ++ toString i ++ ".")) ∧
    (isErrorResult result = false → pyFalsy result = false → isDict result = false →
      get_workout_details_respond i result =
        Except.ok ("Invalid workout format for workout " ++ toString i ++ ".") ∧
      get_event_details_respond i result =
        Except.ok ("Invalid event format for event " ++ toString i ++ ".")) ∧
    (∀ w, result = Py.dict w → isErrorResult result = false → pyFalsy result = false →
      get_workout_details_respond i result = format_workout_details w ∧
      get_event_details_respond i result = format_event_details w) := by
  refine ⟨?_, ?_, ?_, ?_⟩
  · intro he
    constructor <;>
      simp [get_workout_details_respond, get_event_details_respond, he,
        Pure.pure, Except.pure]
  · intro he hf
    constructor <;>
      simp [get_workout_details_respond, get_event_details_respond, he, hf,
        Pure.pure, Except.pure]
  · intro he hf hd
    cases result with
    | dict kvs => cases hd
    | list xs =>
      constructor <;>
        simp [get_workout_details_respond, get_event_details_respond, he, hf,
          Pure.pure, Except.pure]
    | none =>
      constructor <;>
        simp [get_workout_details_respond, get_event_details_respond, he, hf,
          Pure.pure, Except.pure]
    | bool b =>
      constructor <;>
        simp [get_workout_details_respond, get_event_details_respond, he, hf,
          Pure.pure, Except.pure]
    | int n =>
      constructor <;>
        simp [get_workout_details_respond, get_event_details_respond, he, hf,
          Pure.pure, Except.pure]
    | str s =>
      constructor <;>
        simp [get_workout_details_respond, get_event_details_respond, he, hf,
          Pure.pure, Except.pure]
  · rintro w rfl he hf
    constructor <;>
      simp [get_workout_details_respond, get_event_details_respond, he, hf]

theorem claim_C5_detail_outcomes_witness :
    get_workout_details_respond 123 (Py.dict []) =
      Except.ok "No details found for workout 123." ∧
    get_workout_details_respond 123 (Py.int 7) =
      Except.ok "Invalid workout format for workout 123." ∧
    get_event_details_respond 123 (Py.int 7) =
      Except.ok "Invalid event format for event 123." := by
  have h1 := (claim_C5_detail_outcomes 123 (Py.dict [])).2.1 (by decide) (by decide)
  have h2 := (claim_C5_detail_outcomes 123 (Py.int 7)).2.2.1 (by decide) (by decide) (by decide)
  refine ⟨?_, ?_, ?_⟩
  · rw [h1.1]; decide
  · rw [h2.1]; decide
  · rw [h2.2]; decide

theorem claim_C8_total_range_witness :
    ((1 : Int) ≤ 739063 - 30 ∧ 739063 - 30 ≤ (3652059 : Int) ∧
      (1 : Int) ≤ 739063 + 1 ∧ 739063 + 1 ≤ (3652059 : Int)) ∧
    isValidYMD (parse_date_range none (some "2025-01-01") 30 739063).1 = true ∧
    some (parse_date_range none (some "2025-01-01") 30 739063).2 = some "2025-01-01" := by
  have h := claim_C8_total_range none (some "2025-01-01") 30 739063
    (by decide) (by decide) (by decide) (by decide)
  exact ⟨⟨by decide, by decide, by decide, by decide⟩, h.2.2.1 rfl, h.2.2.2.2.2 (by decide)⟩

/-! ## String containment helpers -/

theorem strContains_here (n x y : String) : strContains n ((n ++ x) ++ y) := by
  refine ⟨[], x.data ++ y.data, ?_⟩
  simp [String.data_append]

theorem strContains_shift (n pre hay : String) (h : strContains n hay) :
    strContains n (pre ++ hay) := by
  obtain ⟨a, b, hab⟩ := h
  refine ⟨pre.data ++ a, b, ?_⟩
  simp [String.data_append, hab]

theorem str_data_inj {s t : String} (h : s.data = t.data) : s = t := by
  cases s
  cases t
  exact congrArg String.mk h

theorem str_append_assoc (a b c : String) : (a ++ b) ++ c = a ++ (b ++ c) :=
  str_data_inj (by simp [String.data_append, List.append_assoc])

theorem joinLines_head (a b : String) (t : List String) :
    joinLines (a :: b :: t) = a ++ ("\n" ++ joinLines (b :: t)) :=
  str_append_assoc a "\n" (joinLines (b :: t))

theorem format_workout_summary_head (w : List (String × Py)) (out : String)
    (h : format_workout_summary w = Except.ok out) :
    ∃ rest : String,
      out = ("Workout: " ++ pyStr (wgetD w "name" (Py.str "Unnamed"))) ++ ("\n" ++ rest) := by
  unfold format_workout_summary at h
  cases h1 : fmtDuration (wget w "duration_total_seconds") with
  | error e => rw [h1] at h; simp [Bind.bind, Except.bind] at h
  | ok duration =>
    rw [h1] at h
    cases h2 : fmtDistance (wget w "distance_meters") with
    | error e => rw [h2] at h; simp [Bind.bind, Except.bind] at h
    | ok distance =>
      rw [h2] at h
      simp only [Bind.bind, Except.bind] at h
      split_ifs at h
      all_goals try simp only [Bind.bind, Except.bind, Pure.pure, Except.pure] at h
      all_goals try split at h
      all_goals first
        | exact Except.noConfusion h
        | (replace h := Except.ok.inj h
           subst h
           try simp only [List.cons_append, List.nil_append]
           rw [joinLines_head]
           exact ⟨_, rfl⟩)

theorem strContains_after (pre n y : String) : strContains n ((pre ++ n) ++ y) := by
  refine ⟨pre.data, y.data, ?_⟩
  simp [String.data_append]

theorem strContains_extend (n hay post : String) (h : strContains n hay) :
    strContains n (hay ++ post) := by
  obtain ⟨a, b, hab⟩ := h
  refine ⟨a, b ++ post.data, ?_⟩
  simp [String.data_append, hab]

/-- C6: a list call whose unwrapped item list is empty returns the literal
"No … found in the specified date range." sentinel of its kind, a string
distinct from every error string of that handler; and a response holding
exactly one well-formed workout renders a string containing
"Workouts (1 of 1 total):" and the workout's name. -/
theorem claim_C6_empty_sentinel_one_workout (result : Py) :
    (isErrorResult result = false → unwrapItems "workouts" result = Py.list [] →
      get_workouts_respond result =
        Except.ok "No workouts found in the specified date range.") ∧
    (isErrorResult result = false → unwrapItems "events" result = Py.list [] →
      get_events_respond result =
        Except.ok "No events found in the specified date range.") ∧
    (isErrorResult result = false → unwrapItems "wellness" result = Py.list [] →
      get_wellness_respond result =
        Except.ok "No wellness data found in the specified date range.") ∧
    (∀ s : String, "No workouts found in the specified date range." ≠
      "Error fetching workouts: " ++ s) ∧
    (∀ s : String, "No events found in the specified date range." ≠
      "Error fetching events: " ++ s) ∧
    (∀ s : String, "No wellness data found in the specified date range." ≠
      "Error fetching wellness data: " ++ s) ∧
    (∀ (w : List (String × Py)) (nm out : String),
      List.lookup "name" w = some (Py.str nm) →
      format_workout_summary w = Except.ok out →
      ∃ full, get_workouts_respond
          (Py.dict [("workouts", Py.list [Py.dict w]), ("total", Py.int 1)]) =
          Except.ok full ∧
        strContains "Workouts (1 of 1 total):" full ∧ strContains nm full) := by
  refine ⟨?_, ?_, ?_, ?_, ?_, ?_, ?_⟩
  · intro he hitems
    cases result with
    | dict kvs =>
      simp [get_workouts_respond, he, unwrapTotal, hitems, pyLen, pyFalsy, List.isEmpty,
        format_workouts_response, Bind.bind, Except.bind, Pure.pure, Except.pure]
    | list xs => injection hitems with hxs; subst hxs; rfl
    | none => rfl
    | bool b => rfl
    | int n => rfl
    | str s => rfl
  · intro he hitems
    cases result with
    | dict kvs =>
      simp [get_events_respond, he, unwrapTotal, hitems, pyLen, pyFalsy, List.isEmpty,
        format_events_response, Bind.bind, Except.bind, Pure.pure, Except.pure]
    | list xs => injection hitems with hxs; subst hxs; rfl
    | none => rfl
    | bool b => rfl
    | int n => rfl
    | str s => rfl
  · intro he hitems
    cases result with
    | dict kvs =>
      simp [get_wellness_respond, he, unwrapTotal, hitems, pyLen, pyFalsy, List.isEmpty,
        format_wellness_response, Bind.bind, Except.bind, Pure.pure, Except.pure]
    | list xs => injection hitems with hxs; subst hxs; rfl
    | none => rfl
    | bool b => rfl
    | int n => rfl
    | str s => rfl
  · intro s h
    have h2 := congrArg String.data h
    rw [String.data_append] at h2
    have h3 : some 'N' = some 'E' := congrArg List.head? h2
    exact absurd (Option.some.inj h3) (by decide)
  · intro s h
    have h2 := congrArg String.data h
    rw [String.data_append] at h2
    have h3 : some 'N' = some 'E' := congrArg List.head? h2
    exact absurd (Option.some.inj h3) (by decide)
  · intro s h
    have h2 := congrArg String.data h
    rw [String.data_append] at h2
    have h3 : some 'N' = some 'E' := congrArg List.head? h2
    exact absurd (Option.some.inj h3) (by decide)
  · intro w nm out hname hsum
    have hr : render_workout_items [Py.dict w] = Except.ok ((out ++ "\n") ++ "") := by
      simp only [render_workout_items, hsum, Bind.bind, Except.bind, Pure.pure, Except.pure]
    have step : get_workouts_respond
        (Py.dict [("workouts", Py.list [Py.dict w]), ("total", Py.int 1)]) =
        Except.bind (render_workout_items [Py.dict w])
          (fun v3 => Except.ok ("Workouts (" ++ toString (1 : Nat) ++ " of " ++
            pyStr (Py.int 1) ++ " total):\n\n" ++ v3)) := rfl
    rw [hr] at step
    simp only [Except.bind] at step
    refine ⟨_, step, ?_, ?_⟩
    · refine ⟨[], '\n' :: '\n' :: ((out ++ "\n") ++ "").data, ?_⟩
      rw [String.data_append]
      have e1 : ("Workouts (" ++ toString (1 : Nat) ++ " of " ++ pyStr (Py.int 1) ++
          " total):\n\n").data = "Workouts (1 of 1 total):".data ++ ['\n', '\n'] := by decide
      rw [e1]
      simp [List.append_assoc]
    · obtain ⟨rest, hout⟩ := format_workout_summary_head w out hsum
      have hnm : pyStr (wgetD w "name" (Py.str "Unnamed")) = nm := by
        rw [wgetD, hname]
        rfl
      rw [hout, hnm]
      apply strContains_shift
      apply strContains_extend
      apply strContains_extend
      exact strContains_after "Workout: " nm ("\n" ++ rest)

theorem claim_C6_empty_sentinel_one_workout_witness :
    get_workouts_respond (Py.dict [("workouts", Py.list []), ("total", Py.int 0)]) =
      Except.ok "No workouts found in the specified date range." ∧
    (∃ full, get_workouts_respond
        (Py.dict [("workouts", Py.list [Py.dict [("name", Py.str "Morning Ride")]]),
          ("total", Py.int 1)]) = Except.ok full ∧
      strContains "Workouts (1 of 1 total):" full ∧ strContains "Morning Ride" full) := by
  constructor
  · exact (claim_C6_empty_sentinel_one_workout
      (Py.dict [("workouts", Py.list []), ("total", Py.int 0)])).1 rfl rfl
  · exact (claim_C6_empty_sentinel_one_workout Py.none).2.2.2.2.2.2
      [("name", Py.str "Morning Ride")] "Morning Ride"
      ("Workout: Morning Ride\n  Type: Unknown\n  Date: N/A\n  Duration: N/A\n  Distance: N/A")
      rfl (by decide)

theorem render_workout_items_cons_dict (w : List (String × Py)) (rest : List Py) :
    render_workout_items (Py.dict w :: rest) =
      Except.bind (format_workout_summary w) (fun s =>
        Except.bind (render_workout_items rest) (fun tl => Except.ok ((s ++ "\n") ++ tl))) :=
  rfl

theorem render_workout_items_cons_invalid (it : Py) (rest : List Py)
    (hid : isDict it = false) :
    render_workout_items (it :: rest) =
      Except.bind (render_workout_items rest)
        (fun tl => Except.ok (("Invalid workout format: " ++ pyStr it ++ "\n\n") ++ tl)) := by
  cases it <;> first | exact Bool.noConfusion hid | rfl

theorem render_wellness_items_cons_dict (w : List (String × Py)) (rest : List Py) :
    render_wellness_items (Py.dict w :: rest) =
      Except.bind (format_wellness_entry w) (fun s =>
        Except.bind (render_wellness_items rest) (fun tl => Except.ok ((s ++ "\n\n") ++ tl))) :=
  rfl

theorem render_wellness_items_cons_invalid (it : Py) (rest : List Py)
    (hid : isDict it = false) :
    render_wellness_items (it :: rest) =
      Except.bind (render_wellness_items rest)
        (fun tl => Except.ok (("Invalid wellness entry format: " ++ pyStr it ++ "\n\n") ++ tl)) := by
  cases it <;> first | exact Bool.noConfusion hid | rfl

theorem py_dict_of_isDict {it : Py} (h : isDict it = true) :
    ∃ w, it = Py.dict w := by
  cases it <;> simp_all [isDict]

/-- C9: inside an item list, every element that is not an object is
rendered as an explicit "Invalid … format: <rendering>" line while every
sibling well-formed item (one whose summary renders) still renders
normally; malformed items are never silently skipped and never fail the
whole call (the loop still returns a string).  Shown for the workouts and
wellness loop bodies the claim cites. -/
theorem claim_C9_malformed_items_visible (items : List Py) :
    ((∀ it ∈ items, ∀ w, it = Py.dict w → ∃ s, format_workout_summary w = Except.ok s) →
      ∃ body, render_workout_items items = Except.ok body ∧
        (∀ it ∈ items, isDict it = false →
          strContains ("Invalid workout format: " ++ pyStr it) body) ∧
        (∀ it ∈ items, ∀ w, it = Py.dict w → ∀ s,
          format_workout_summary w = Except.ok s → strContains s body)) ∧
    ((∀ it ∈ items, ∀ w, it = Py.dict w → ∃ s, format_wellness_entry w = Except.ok s) →
      ∃ body, render_wellness_items items = Except.ok body ∧
        (∀ it ∈ items, isDict it = false →
          strContains ("Invalid wellness entry format: " ++ pyStr it) body) ∧
        (∀ it ∈ items, ∀ w, it = Py.dict w → ∀ s,
          format_wellness_entry w = Except.ok s → strContains s body)) := by
  constructor
  · induction items with
    | nil =>
      intro _
      exact ⟨"", rfl, by simp, by simp⟩
    | cons it rest ih =>
      intro hall
      obtain ⟨body1, hb1, hinv1, hok1⟩ := ih (fun x hx => hall x (List.mem_cons_of_mem _ hx))
      cases hd : isDict it with
      | true =>
        obtain ⟨w, rfl⟩ := py_dict_of_isDict hd
        obtain ⟨s, hs⟩ := hall (Py.dict w) (List.mem_cons_self _ _) w rfl
        refine ⟨(s ++ "\n") ++ body1, ?_, ?_, ?_⟩
        · rw [render_workout_items_cons_dict, hs, hb1]
          rfl
        · intro x hx hxd
          rcases List.mem_cons.mp hx with rfl | hx1
          · exact Bool.noConfusion hxd
          · exact strContains_shift _ _ _ (hinv1 x hx1 hxd)
        · intro x hx w1 hxe s1 hs1
          rcases List.mem_cons.mp hx with rfl | hx1
          · injection hxe with hw
            subst hw
            rw [hs] at hs1
            replace hs1 := Except.ok.inj hs1
            subst hs1
            exact strContains_here s "\n" body1
          · exact strContains_shift _ _ _ (hok1 x hx1 w1 hxe s1 hs1)
      | false =>
        refine ⟨("Invalid workout format: " ++ pyStr it ++ "\n\n") ++ body1, ?_, ?_, ?_⟩
        · rw [render_workout_items_cons_invalid it rest hd, hb1]
          rfl
        · intro x hx hxd
          rcases List.mem_cons.mp hx with rfl | hx1
          · exact strContains_here _ "\n\n" body1
          · exact strContains_shift _ _ _ (hinv1 x hx1 hxd)
        · intro x hx w1 hxe s1 hs1
          rcases List.mem_cons.mp hx with rfl | hx1
          · rw [hxe] at hd
            exact Bool.noConfusion hd
          · exact strContains_shift _ _ _ (hok1 x hx1 w1 hxe s1 hs1)
  · induction items with
    | nil =>
      intro _
      exact ⟨"", rfl, by simp, by simp⟩
    | cons it rest ih =>
      intro hall
      obtain ⟨body1, hb1, hinv1, hok1⟩ := ih (fun x hx => hall x (List.mem_cons_of_mem _ hx))
      cases hd : isDict it with
      | true =>
        obtain ⟨w, rfl⟩ := py_dict_of_isDict hd
        obtain ⟨s, hs⟩ := hall (Py.dict w) (List.mem_cons_self _ _) w rfl
        refine ⟨(s ++ "\n\n") ++ body1, ?_, ?_, ?_⟩
        · rw [render_wellness_items_cons_dict, hs, hb1]
          rfl
        · intro x hx hxd
          rcases List.mem_cons.mp hx with rfl | hx1
          · exact Bool.noConfusion hxd
          · exact strContains_shift _ _ _ (hinv1 x hx1 hxd)
        · intro x hx w1 hxe s1 hs1
          rcases List.mem_cons.mp hx with rfl | hx1
          · injection hxe with hw
            subst hw
            rw [hs] at hs1
            replace hs1 := Except.ok.inj hs1
            subst hs1
            exact strContains_here s "\n\n" body1
          · exact strContains_shift _ _ _ (hok1 x hx1 w1 hxe s1 hs1)
      | false =>
        refine ⟨("Invalid wellness entry format: " ++ pyStr it ++ "\n\n") ++ body1, ?_, ?_, ?_⟩
        · rw [render_wellness_items_cons_invalid it rest hd, hb1]
          rfl
        · intro x hx hxd
          rcases List.mem_cons.mp hx with rfl | hx1
          · exact strContains_here _ "\n\n" body1
          · exact strContains_shift _ _ _ (hinv1 x hx1 hxd)
        · intro x hx w1 hxe s1 hs1
          rcases List.mem_cons.mp hx with rfl | hx1
          · rw [hxe] at hd
            exact Bool.noConfusion hd
          · exact strContains_shift _ _ _ (hok1 x hx1 w1 hxe s1 hs1)

theorem claim_C9_malformed_items_visible_witness :
    ∃ body, render_workout_items [Py.str "junk", Py.dict [("name", Py.str "Run")]] =
      Except.ok body ∧
    (∀ it ∈ [Py.str "junk", Py.dict [("name", Py.str "Run")]], isDict it = false →
      strContains ("Invalid workout format: " ++ pyStr it) body) ∧
    (∀ it ∈ [Py.str "junk", Py.dict [("name", Py.str "Run")]], ∀ w, it = Py.dict w → ∀ s,
      format_workout_summary w = Except.ok s → strContains s body) :=
  (claim_C9_malformed_items_visible [Py.str "junk", Py.dict [("name", Py.str "Run")]]).1
    (by
      intro it hit w hw
      cases hit with
      | head => exact Py.noConfusion hw
      | tail _ h2 =>
        cases h2 with
        | head =>
          injection hw with hw2
          subst hw2
          exact ⟨"Workout: Run\n  Type: Unknown\n  Date: N/A\n  Duration: N/A\n  Distance: N/A",
            by decide⟩
        | tail _ h3 => cases h3)
